import Mathlib

/-!
Verification development for the slidebolt gateway core.

The Go sources are shallowly embedded: every pure computation becomes a Lean
function, and every handler that mutates the process-global `vstore` becomes a
state-passing function on an explicit `VStore` value.  Bus RPC replies, the
clock, and freshly generated identifiers — the handlers' only other inputs —
are passed as explicit parameters, so one call of an embedded function models
one execution of the corresponding Go handler body.

Modelling conventions:
* `time.Time` values are modelled as `Nat` instants; the several `time.Now()`
  calls inside a single handler body are modelled as one instant.
* A `json.RawMessage` payload is abstracted by the only observation the
  gateway ever makes of it: whether `json.Unmarshal` into the
  `struct { Type string }` probe succeeds, and if so the value of its `type`
  field (`JSONProbe`).  A missing `type` field unmarshals to the empty string,
  exactly as in Go.
* The three JSON files under the store's data directory are modelled by
  `Disk`; `Option.none` for a file models "missing or malformed".
* Go maps keyed by strings are modelled as association lists with
  replace-on-insert semantics (`StrMap`).
-/

/-- Abstraction of a `json.RawMessage` by the gateway's `{type: string}`
probe: `parseError` when `json.Unmarshal` of the probe fails, otherwise the
`type` field (empty string when the field is absent). -/
inductive JSONProbe where
  | parseError : JSONProbe
  | typeField : String → JSONProbe
deriving DecidableEq, Repr

/-- `types.CommandStatus.State`: the three command states of the SDK. -/
inductive CommandState where
  | pending : CommandState
  | succeeded : CommandState
  | failed : CommandState
deriving DecidableEq, Repr

/-- `types.CommandStatus` from the sdk-types package, as used by the gateway. -/
structure CommandStatus where
  commandID : String
  pluginID : String
  deviceID : String
  entityID : String
  entityType : String
  state : CommandState
  error : String
  createdAt : Nat
  lastUpdatedAt : Nat
deriving DecidableEq, Repr

/-- The `data` block of `types.Entity`: desired/reported/effective blobs,
sync status, last command/event ids and the update timestamp. -/
structure EntityData where
  desired : JSONProbe
  reported : JSONProbe
  effective : JSONProbe
  syncStatus : String
  lastCommandID : String
  lastEventID : String
  updatedAt : Nat
deriving DecidableEq, Repr

/-- `types.Entity` from the sdk-types package. -/
structure Entity where
  id : String
  deviceID : String
  domain : String
  localName : String
  actions : List String
  data : EntityData
deriving DecidableEq, Repr

/-- `virtualEntityRecord` of state.go. -/
structure VirtualEntityRecord where
  ownerPluginID : String
  ownerDeviceID : String
  sourcePluginID : String
  sourceDeviceID : String
  sourceEntityID : String
  mirrorSource : Bool
  entity : Entity
deriving DecidableEq, Repr

/-- `virtualCommandRecord` of state.go. -/
structure VirtualCommandRecord where
  ownerPluginID : String
  sourcePluginID : String
  sourceCommand : String
  virtualKey : String
  status : CommandStatus
deriving DecidableEq, Repr

/-- `observedEvent` of state.go. -/
structure ObservedEvent where
  name : String
  pluginID : String
  deviceID : String
  entityID : String
  eventID : String
  createdAt : Nat
deriving DecidableEq, Repr

/-- A Go `map[string]V`, modelled as an association list with
replace-on-insert semantics. -/
def StrMap (α : Type) : Type := List (String × α)

instance (α : Type) [DecidableEq α] : DecidableEq (StrMap α) :=
  inferInstanceAs (DecidableEq (List (String × α)))

/-- Go map read `v, ok := m[k]`. -/
def StrMap.find? {α : Type} : StrMap α → String → Option α
  | [], _ => none
  | (k', v) :: rest, k => if k' = k then some v else StrMap.find? rest k

/-- Go map write `m[k] = v`: replaces the binding if present, else adds it. -/
def StrMap.insert {α : Type} : StrMap α → String → α → StrMap α
  | [], k, v => [(k, v)]
  | (k', v') :: rest, k, v =>
      if k' = k then (k, v) :: rest else (k', v') :: StrMap.insert rest k v

/-- The three JSON files of the store's data directory
(`virtual_entities.json`, `virtual_commands.json`, `event_journal.json`).
`none` models a file that is missing or fails to unmarshal. -/
structure Disk where
  entitiesFile : Option (StrMap VirtualEntityRecord)
  commandsFile : Option (StrMap VirtualCommandRecord)
  journalFile : Option (List ObservedEvent)
deriving DecidableEq

/-- `virtualStore` of state.go: the three containers plus (in place of the
`dataDir` path) the modelled contents of the files at that path. -/
structure VStore where
  entities : StrMap VirtualEntityRecord
  commands : StrMap VirtualCommandRecord
  events : List ObservedEvent
  disk : Disk
deriving DecidableEq

/-- `entityKey` of state.go. -/
def entityKey (pluginID deviceID entityID : String) : String :=
  pluginID ++ "|" ++ deviceID ++ "|" ++ entityID

/-- `types.RPCError`. -/
structure RPCError where
  code : Int
  message : String
deriving DecidableEq, Repr

/-- A deserialized JSON-RPC response, polymorphic in the result payload the
caller will decode.  `result = none` models a `Result` that is absent or
fails to unmarshal into the expected Go type. -/
structure RPCResponse (ρ : Type) where
  result : Option ρ
  error : Option RPCError
deriving DecidableEq

/-- `types.Registration`: the registry stores the manifest id implicitly as
the key; only the RPC subject is consulted by the router. -/
structure Registration where
  rpcSubject : String
deriving DecidableEq

/-- Outcome of the `nc.Request` round trip inside `routeRPC`: either no reply
within the 2 s bound, or a reply that deserializes to the given response. -/
inductive BusOutcome (ρ : Type) where
  | timeout : BusOutcome ρ
  | reply : RPCResponse ρ → BusOutcome ρ
deriving DecidableEq

/-- `routeRPC` of bootstrap.go.  The registry lookup and the two error
constants are taken verbatim from the source; the bus round trip is an
explicit parameter.  The second component records whether a bus request was
sent at all. -/
def routeRPC {ρ : Type} (registry : StrMap Registration) (bus : BusOutcome ρ)
    (pluginID method : String) : RPCResponse ρ × Bool :=
  match registry.find? pluginID, method with
  | none, _ => (⟨none, some ⟨-32000, "plugin not registered"⟩⟩, false)
  | some _, _ =>
      match bus with
      | .timeout => (⟨none, some ⟨-32000, "plugin timeout"⟩⟩, true)
      | .reply r => (r, true)

/-- `parseEntities` of bootstrap.go, applied to a deserialized response.
The unmarshal-failure message is abstracted (no caller inspects it). -/
def parseEntities (resp : RPCResponse (List Entity)) : Except String (List Entity) :=
  match resp.error with
  | some e => .error e.message
  | none =>
      match resp.result with
      | some es => .ok es
      | none => .error "unmarshal error"

/-- `findEntity` of bootstrap.go: an `entities/list` call followed by a scan
for the first entity with the requested id.  The deserialized list response
is passed in place of performing the RPC. -/
def findEntity (resp : RPCResponse (List Entity)) (entityID : String) :
    Except String Entity :=
  match parseEntities resp with
  | .error m => .error m
  | .ok es =>
      match es.find? (fun e => e.id == entityID) with
      | some e => .ok e
      | none => .error "entity not found"

/-- `light.Type` of the sdk-entities light package (external to this
repository); the spec fixes its value to "light". -/
def lightType : String := "light"

/-- `light.ActionSetRGB` of the sdk-entities light package (external to this
repository); the spec fixes its value to "set_rgb". -/
def actionSetRGB : String := "set_rgb"

/-- `classifyEventName` of events.go. -/
def classifyEventName (entityType : String) (payload : JSONProbe)
    (isVirtual : Bool) : String :=
  let pre := if isVirtual then "entity.virtual" else "entity.original"
  if entityType = lightType then
    match payload with
    | .typeField t =>
        if t = actionSetRGB then pre ++ ".lightchange" else pre ++ ".statechange"
    | .parseError => pre ++ ".statechange"
  else pre ++ ".statechange"

/-- `parseActionType` of bootstrap.go. -/
def parseActionType (payload : JSONProbe) : Except String String :=
  match payload with
  | .parseError => .error "json unmarshal error"
  | .typeField t => if t = "" then .error "payload.type is required" else .ok t

/-- `containsAction` of bootstrap.go. -/
def containsAction : List String → String → Bool
  | [], _ => false
  | a :: rest, action => if a = action then true else containsAction rest action

/-- `loadVirtualStore` of bootstrap.go: start from empty containers, then
replace each container whose file reads and unmarshals successfully. -/
def loadVirtualStore (d : Disk) : VStore :=
  { entities := d.entitiesFile.getD []
    commands := d.commandsFile.getD []
    events := d.journalFile.getD []
    disk := d }

/-- `persistLocked` of bootstrap.go: write all three containers out. -/
def VStore.persistLocked (vs : VStore) : VStore :=
  { vs with disk := ⟨some vs.entities, some vs.commands, some vs.events⟩ }

/-- `appendEventLocked` of bootstrap.go: append, then trim to the newest
5000 entries. -/
def VStore.appendEventLocked (vs : VStore) (evt : ObservedEvent) : VStore :=
  let events := vs.events ++ [evt]
  { vs with
      events := if events.length > 5000 then events.drop (events.length - 5000)
                else events }

/-- The body of the virtual-entity creation request
(`createVirtualEntityHandler` of routes.go). -/
structure CreateVirtualRequest where
  id : String
  localName : String
  actions : List String
  sourcePluginID : String
  sourceDeviceID : String
  sourceEntityID : String
  mirrorSource : Option Bool
deriving DecidableEq

/-- The error taxonomy of the HTTP handlers: bad request (400), forbidden
(403) and conflict (409), each carrying the handler's message. -/
inductive ApiErr where
  | badRequest : String → ApiErr
  | forbidden : String → ApiErr
  | conflict : String → ApiErr
deriving DecidableEq

/-- `createVirtualEntityHandler` of routes.go.  The two `entities/list`
round trips (`findEntity` against the owner plugin and against the source
plugin) are passed as deserialized responses.  The first component of the
result is the store after the handler returns; the handler only mutates it
on the success path. -/
def createVirtualEntity (st : VStore) (pluginID deviceID : String)
    (req : CreateVirtualRequest)
    (ownerListResp sourceListResp : RPCResponse (List Entity)) (now : Nat) :
    VStore × Except ApiErr Entity :=
  if req.id = "" ∨ req.sourcePluginID = "" ∨ req.sourceDeviceID = "" ∨
      req.sourceEntityID = "" then
    (st, .error (.badRequest
      "id, source_plugin_id, source_device_id, source_entity_id are required"))
  else
    let key := entityKey pluginID deviceID req.id
    match findEntity ownerListResp req.id with
    | .ok _ => (st, .error (.conflict "entity id already exists in plugin"))
    | .error _ =>
        match st.entities.find? key with
        | some _ => (st, .error (.conflict "virtual entity id already exists"))
        | none =>
            match findEntity sourceListResp req.sourceEntityID with
            | .error _ => (st, .error (.forbidden "source entity not found"))
            | .ok source =>
                let mirror := req.mirrorSource.getD true
                let actions :=
                  if req.actions.length = 0 then source.actions else req.actions
                let localName :=
                  if req.localName = "" then source.localName else req.localName
                let ent : Entity :=
                  { id := req.id, deviceID := deviceID, domain := source.domain
                    localName := localName, actions := actions
                    data := { source.data with
                                syncStatus := "in_sync", updatedAt := now } }
                let rec0 : VirtualEntityRecord :=
                  { ownerPluginID := pluginID, ownerDeviceID := deviceID
                    sourcePluginID := req.sourcePluginID
                    sourceDeviceID := req.sourceDeviceID
                    sourceEntityID := req.sourceEntityID
                    mirrorSource := mirror, entity := ent }
                (VStore.persistLocked
                   { st with entities := st.entities.insert key rec0 },
                 .ok ent)

/-- The tail of the virtual command-dispatch path, after the action check
has passed: forward to the source plugin, build the local pending status,
store the virtual command record, mark the mirror pending, persist
(routes.go, command route, virtual branch). -/
def forwardVirtualCommand (st : VStore) (pluginID deviceID entityID : String)
    (vrec : VirtualEntityRecord) (sourceResp : RPCResponse CommandStatus)
    (now : Nat) (virtualCID : String) : VStore × Except ApiErr CommandStatus :=
  match sourceResp.error with
  | some e => (st, .error (.forbidden e.message))
  | none =>
      match sourceResp.result with
      | none => (st, .error (.forbidden "invalid source command status"))
      | some sourceStatus =>
          let key := entityKey pluginID deviceID entityID
          let status : CommandStatus :=
            { commandID := virtualCID, pluginID := pluginID
              deviceID := deviceID, entityID := entityID
              entityType := vrec.entity.domain, state := .pending
              error := "", createdAt := now, lastUpdatedAt := now }
          let cmdRec : VirtualCommandRecord :=
            { ownerPluginID := pluginID, sourcePluginID := vrec.sourcePluginID
              sourceCommand := sourceStatus.commandID, virtualKey := key
              status := status }
          let vrec' : VirtualEntityRecord :=
            { vrec with entity := { vrec.entity with data :=
                { vrec.entity.data with lastCommandID := virtualCID
                                        syncStatus := "pending"
                                        updatedAt := now } } }
          (VStore.persistLocked
             { st with commands := st.commands.insert virtualCID cmdRec
                       entities := st.entities.insert key vrec' },
           .ok status)

/-- The virtual branch of the command-dispatch route (routes.go): extract
the action from the payload, check it against the virtual entity's action
list, then forward.  `vrec` is the record the handler found at the
composite key; the source plugin's `entities/commands/create` reply and the
freshly generated `vcmd` id are passed in. -/
def sendCommandVirtual (st : VStore) (pluginID deviceID entityID : String)
    (vrec : VirtualEntityRecord) (payload : JSONProbe)
    (sourceResp : RPCResponse CommandStatus) (now : Nat) (virtualCID : String) :
    VStore × Except ApiErr CommandStatus :=
  match parseActionType payload with
  | .error m => (st, .error (.badRequest m))
  | .ok actionType =>
      if 0 < vrec.entity.actions.length ∧
          containsAction vrec.entity.actions actionType = false then
        (st, .error (.forbidden
          ("action \"" ++ actionType ++ "\" not supported by this virtual entity")))
      else
        forwardVirtualCommand st pluginID deviceID entityID vrec sourceResp now
          virtualCID

/-- The virtual branch of the synchronous event-ingest route (routes.go):
update the mirror's reported/effective state, record the correlation id and
mark the correlated command succeeded when one exists, journal a virtual
event, persist, and return the updated entity.  `newEventID` stands for the
freshly generated `vevt` id. -/
def ingestEventVirtual (st : VStore) (pluginID deviceID entityID : String)
    (vrec : VirtualEntityRecord) (payload : JSONProbe)
    (correlationID newEventID : String) (now : Nat) : VStore × Entity :=
  let d1 := { vrec.entity.data with
                reported := payload, effective := payload
                syncStatus := "in_sync", lastEventID := newEventID }
  let d2 := if correlationID = "" then d1
            else { d1 with lastCommandID := correlationID }
  let commands' :=
    if correlationID = "" then st.commands
    else
      match st.commands.find? correlationID with
      | some cmdRec =>
          st.commands.insert correlationID
            { cmdRec with status := { cmdRec.status with
                state := .succeeded, lastUpdatedAt := now } }
      | none => st.commands
  let d3 := { d2 with updatedAt := now }
  let vrec' := { vrec with entity := { vrec.entity with data := d3 } }
  let key := entityKey pluginID deviceID entityID
  let evt : ObservedEvent :=
    { name := classifyEventName vrec'.entity.domain payload true
      pluginID := pluginID, deviceID := deviceID, entityID := entityID
      eventID := d3.lastEventID, createdAt := now }
  let st1 := { st with commands := commands'
                       entities := st.entities.insert key vrec' }
  ((st1.appendEventLocked evt).persistLocked, vrec'.entity)

/-- Outcome of one `fetchCommandStatus` round trip of the monitor
(bootstrap.go): either an error (RPC error or unmarshal failure) or the
source plugin's deserialized `CommandStatus`. -/
def fetchCommandStatus (resp : RPCResponse CommandStatus) :
    Except String CommandStatus :=
  match resp.error with
  | some e => .error e.message
  | none =>
      match resp.result with
      | some s => .ok s
      | none => .error "unmarshal error"

/-- The environment of one monitor iteration: the source plugin's
`commands/status/get` reply, the `entities/list` reply used to re-read the
source entity on success, and the instant of the iteration's mutation. -/
structure PollInput where
  statusResp : RPCResponse CommandStatus
  srcEntityResp : RPCResponse (List Entity)
  now : Nat

/-- The terminal branch of the monitor's poll loop (monitorVirtualCommand):
re-read the command record under the exclusive lock, copy the source's
terminal state and error into it, update the owning mirror, persist. -/
def monitorApplyTerminal (st : VStore) (commandID : String)
    (sourceStatus : CommandStatus) (srcEntityResp : RPCResponse (List Entity))
    (now : Nat) : VStore :=
  match st.commands.find? commandID with
  | none => st
  | some rec =>
      let rec' := { rec with status := { rec.status with
          state := sourceStatus.state, error := sourceStatus.error
          lastUpdatedAt := now } }
      let commands' := st.commands.insert commandID rec'
      let entities' :=
        match st.entities.find? rec.virtualKey with
        | none => st.entities
        | some vent =>
            let base :=
              if sourceStatus.state = .succeeded then
                let copied :=
                  match findEntity srcEntityResp vent.sourceEntityID with
                  | .ok src =>
                      { vent.entity.data with
                          desired := src.data.desired
                          reported := src.data.reported
                          effective := src.data.effective }
                  | .error _ => vent.entity.data
                { copied with syncStatus := "in_sync" }
              else { vent.entity.data with syncStatus := "failed" }
            st.entities.insert rec.virtualKey
              { vent with entity := { vent.entity with data :=
                  { base with lastCommandID := commandID, updatedAt := now } } }
      VStore.persistLocked { st with commands := commands', entities := entities' }

/-- The post-loop timeout block of `monitorVirtualCommand`: if the record
still exists, mark it failed with the timeout error text, mark the mirror
failed, persist. -/
def monitorTimeout (st : VStore) (commandID : String) (now : Nat) : VStore :=
  match st.commands.find? commandID with
  | none => st
  | some rec =>
      let rec' := { rec with status := { rec.status with
          state := .failed, error := "timeout waiting for source command"
          lastUpdatedAt := now } }
      let commands' := st.commands.insert commandID rec'
      let entities' :=
        match st.entities.find? rec.virtualKey with
        | none => st.entities
        | some vent =>
            st.entities.insert rec.virtualKey
              { vent with entity := { vent.entity with data :=
                  { vent.entity.data with syncStatus := "failed"
                                          lastCommandID := commandID
                                          updatedAt := now } } }
      VStore.persistLocked { st with commands := commands', entities := entities' }

/-- The poll loop of `monitorVirtualCommand`, by remaining iterations: stop
when the record is gone, keep polling on fetch errors or a still-pending
source status, apply the terminal branch otherwise, and fall through to the
timeout block when the iterations are exhausted.  `env n` supplies the
environment of the iteration with `n` iterations remaining after it. -/
def monitorFuel (commandID : String) (env : Nat → PollInput) (timeoutNow : Nat) :
    Nat → VStore → VStore
  | 0, st => monitorTimeout st commandID timeoutNow
  | n + 1, st =>
      match st.commands.find? commandID with
      | none => st
      | some _ =>
          let p := env n
          match fetchCommandStatus p.statusResp with
          | .error _ => monitorFuel commandID env timeoutNow n st
          | .ok s =>
              if s.state = .pending then monitorFuel commandID env timeoutNow n st
              else monitorApplyTerminal st commandID s p.srcEntityResp p.now

/-- `monitorVirtualCommand` of the monitor source file: up to 100 polls at
100 ms intervals, then the timeout block.  Sleeps are real time and are not
modelled; the iteration cap is. -/
def monitorVirtualCommand (st : VStore) (commandID : String)
    (env : Nat → PollInput) (timeoutNow : Nat) : VStore :=
  monitorFuel commandID env timeoutNow 100 st

/-- 2^64: the modulus of Go's uint64 arithmetic. -/
def uint64Mod : Nat := 18446744073709551616

/-- One call of `nextID`: `fmt.Sprintf("%s-%d-%d", prefix, ts, seq')` where
`seq'` is the uint64 counter after `atomic.AddUint64(&idSeq, 1)`.  Returns
the id together with the new counter value. -/
def nextID (pfx : String) (tsNano : Nat) (idSeq : Nat) : String × Nat :=
  let seq' := (idSeq + 1) % uint64Mod
  (pfx ++ "-" ++ Nat.repr tsNano ++ "-" ++ Nat.repr seq', seq')

/-- The process-wide `idSeq` counter after `k` calls of `nextID`, starting
from its zero initial value. -/
def idSeqAfter : Nat → Nat
  | 0 => 0
  | k + 1 => (nextID "" 0 (idSeqAfter k)).2

/-- The id returned by the `k`-th call (0-indexed) of `nextID` in a process,
with `ts` giving the nanosecond timestamp each call observes. -/
def callID (pfx : String) (ts : Nat → Nat) (k : Nat) : String :=
  (nextID pfx (ts k) (idSeqAfter k)).1

lemma StrMap.find?_insert_self {α : Type} (m : StrMap α) (k : String) (v : α) :
    (m.insert k v).find? k = some v := by
  induction m with
  | nil => simp [StrMap.insert, StrMap.find?]
  | cons hd tl ih =>
      obtain ⟨k', v'⟩ := hd
      by_cases h : k' = k
      · simp [StrMap.insert, StrMap.find?, h]
      · simp [StrMap.insert, StrMap.find?, h, ih]

lemma StrMap.find?_insert_ne {α : Type} (m : StrMap α) (k k' : String) (v : α)
    (h : k ≠ k') : (m.insert k v).find? k' = m.find? k' := by
  induction m with
  | nil => simp [StrMap.insert, StrMap.find?, h]
  | cons hd tl ih =>
      obtain ⟨k0, v0⟩ := hd
      by_cases h0 : k0 = k
      · subst h0
        simp [StrMap.insert, StrMap.find?, h]
      · simp [StrMap.insert, StrMap.find?, h0, ih]

/-- Claim C6: event-name classification is a deterministic function of the
entity type, the payload probe and the virtual flag: the prefix is
`entity.virtual` exactly when the event is virtual, and the suffix is
`.lightchange` exactly when the entity type is "light" and the payload
parses with type field "set_rgb"; in every other case — including a payload
that fails to parse — the suffix is `.statechange`. -/
theorem classifyEventName_spec (entityType : String) (payload : JSONProbe)
    (isVirtual : Bool) :
    classifyEventName entityType payload isVirtual =
      (if isVirtual then "entity.virtual" else "entity.original") ++
      (if entityType = "light" ∧ payload = JSONProbe.typeField "set_rgb" then
        ".lightchange" else ".statechange") := by
  rcases payload with _ | t
  · by_cases h : entityType = "light" <;>
      simp [classifyEventName, lightType, actionSetRGB, h]
  · by_cases h : entityType = "light" <;>
      by_cases ht : t = "set_rgb" <;>
        simp [classifyEventName, lightType, actionSetRGB, h, ht]

/-- Claim C4: the RPC router returns the structured "plugin not registered"
error — without sending any bus request — when the plugin id is absent from
the registry; returns the structured "plugin timeout" error when the bus
round trip times out; and otherwise returns the plugin's deserialized
response unchanged, including any error the plugin reported. -/
theorem routeRPC_spec (ρ : Type) (registry : StrMap Registration)
    (bus : BusOutcome ρ) (pluginID method : String) :
    (registry.find? pluginID = none →
      routeRPC registry bus pluginID method =
        (⟨none, some ⟨-32000, "plugin not registered"⟩⟩, false)) ∧
    (∀ reg, registry.find? pluginID = some reg → bus = .timeout →
      routeRPC registry bus pluginID method =
        (⟨none, some ⟨-32000, "plugin timeout"⟩⟩, true)) ∧
    (∀ reg r, registry.find? pluginID = some reg → bus = .reply r →
      routeRPC registry bus pluginID method = (r, true)) := by
  refine ⟨fun h => ?_, fun reg h hb => ?_, fun reg r h hb => ?_⟩ <;>
    simp [routeRPC, h, *]

def sampleRegistry : StrMap Registration := [("p1", ⟨"sb.rpc.p1"⟩)]

def sampleReply : RPCResponse Unit := ⟨none, some ⟨7, "some plugin error"⟩⟩

theorem routeRPC_spec_witness :
    (StrMap.find? ([] : StrMap Registration) "p9" = none ∧
      routeRPC ([] : StrMap Registration) (BusOutcome.timeout (ρ := Unit)) "p9"
          "devices/list" =
        (⟨none, some ⟨-32000, "plugin not registered"⟩⟩, false)) ∧
    (StrMap.find? sampleRegistry "p1" = some ⟨"sb.rpc.p1"⟩ ∧
      routeRPC sampleRegistry (BusOutcome.timeout (ρ := Unit)) "p1"
          "devices/list" =
        (⟨none, some ⟨-32000, "plugin timeout"⟩⟩, true)) ∧
    routeRPC sampleRegistry (BusOutcome.reply sampleReply) "p1" "devices/list" =
      (sampleReply, true) := by
  refine ⟨⟨by decide, ?_⟩, ⟨by decide, ?_⟩, ?_⟩
  · exact (routeRPC_spec Unit [] BusOutcome.timeout "p9" "devices/list").1
      (by decide)
  · exact (routeRPC_spec Unit sampleRegistry BusOutcome.timeout "p1"
      "devices/list").2.1 ⟨"sb.rpc.p1"⟩ (by decide) rfl
  · exact (routeRPC_spec Unit sampleRegistry (BusOutcome.reply sampleReply) "p1"
      "devices/list").2.2 ⟨"sb.rpc.p1"⟩ sampleReply (by decide) rfl

/-- Claim C9: persisting a store to the three JSON files and reloading via
the startup loader restores exactly the persisted containers; and a missing
or malformed file yields the corresponding empty container instead of a
fatal error. -/
theorem loadVirtualStore_roundTrip :
    (∀ vs : VStore,
      (loadVirtualStore vs.persistLocked.disk).entities = vs.entities ∧
      (loadVirtualStore vs.persistLocked.disk).commands = vs.commands ∧
      (loadVirtualStore vs.persistLocked.disk).events = vs.events) ∧
    (∀ d : Disk,
      (d.entitiesFile = none → (loadVirtualStore d).entities = []) ∧
      (d.commandsFile = none → (loadVirtualStore d).commands = []) ∧
      (d.journalFile = none → (loadVirtualStore d).events = [])) := by
  refine ⟨fun vs => ⟨rfl, rfl, rfl⟩, fun d => ⟨fun h => ?_, fun h => ?_, fun h => ?_⟩⟩ <;>
    simp [loadVirtualStore, h]

def sampleData : EntityData :=
  { desired := .parseError, reported := .parseError, effective := .parseError
    syncStatus := "in_sync", lastCommandID := "", lastEventID := ""
    updatedAt := 0 }

def sampleEntity : Entity :=
  { id := "v1", deviceID := "d2", domain := "light", localName := "Lamp"
    actions := ["turn_on", "set_brightness"], data := sampleData }

def sampleKey : String := entityKey "p2" "d2" "v1"

def sampleVrec : VirtualEntityRecord :=
  { ownerPluginID := "p2", ownerDeviceID := "d2", sourcePluginID := "p1"
    sourceDeviceID := "d1", sourceEntityID := "e1", mirrorSource := true
    entity := sampleEntity }

def failedStatus : CommandStatus :=
  { commandID := "vcmd-1", pluginID := "p2", deviceID := "d2"
    entityID := "v1", entityType := "light", state := .failed
    error := "device unreachable", createdAt := 0, lastUpdatedAt := 1 }

def sampleCmdRec : VirtualCommandRecord :=
  { ownerPluginID := "p2", sourcePluginID := "p1", sourceCommand := "src-1"
    virtualKey := sampleKey, status := failedStatus }

def sampleStore : VStore :=
  { entities := [(sampleKey, sampleVrec)]
    commands := [("vcmd-1", sampleCmdRec)]
    events := [], disk := ⟨none, none, none⟩ }

theorem loadVirtualStore_roundTrip_witness :
    ((loadVirtualStore sampleStore.persistLocked.disk).entities =
        sampleStore.entities ∧
      (loadVirtualStore sampleStore.persistLocked.disk).commands =
        sampleStore.commands ∧
      (loadVirtualStore sampleStore.persistLocked.disk).events =
        sampleStore.events) ∧
    ((⟨none, none, none⟩ : Disk).entitiesFile = none ∧
      (loadVirtualStore ⟨none, none, none⟩).entities = [] ∧
      (loadVirtualStore ⟨none, none, none⟩).commands = [] ∧
      (loadVirtualStore ⟨none, none, none⟩).events = []) := by
  refine ⟨loadVirtualStore_roundTrip.1 sampleStore, rfl, ?_, ?_, ?_⟩
  · exact (loadVirtualStore_roundTrip.2 ⟨none, none, none⟩).1 rfl
  · exact (loadVirtualStore_roundTrip.2 ⟨none, none, none⟩).2.1 rfl
  · exact (loadVirtualStore_roundTrip.2 ⟨none, none, none⟩).2.2 rfl

/-- Claim C2: when a virtual-entity creation request reaches the
source-entity lookup and that lookup fails — because the `entities/list`
RPC to the source plugin returned an error or because the requested entity
is absent from the returned list (both cases are exactly the `error`
results of `findEntity`) — the handler fails with the forbidden
"source entity not found" error and the store is returned unchanged:
entities map, commands map and event journal are all untouched. -/
theorem createVirtualEntity_sourceMissing (st : VStore)
    (pluginID deviceID : String) (req : CreateVirtualRequest)
    (ownerResp sourceResp : RPCResponse (List Entity)) (now : Nat)
    (hid : req.id ≠ "") (hsp : req.sourcePluginID ≠ "")
    (hsd : req.sourceDeviceID ≠ "") (hse : req.sourceEntityID ≠ "")
    (howner : ∃ m, findEntity ownerResp req.id = .error m)
    (hkey : st.entities.find? (entityKey pluginID deviceID req.id) = none)
    (hsrc : ∃ m, findEntity sourceResp req.sourceEntityID = .error m) :
    createVirtualEntity st pluginID deviceID req ownerResp sourceResp now =
      (st, .error (.forbidden "source entity not found")) := by
  obtain ⟨m1, h1⟩ := howner
  obtain ⟨m2, h2⟩ := hsrc
  simp [createVirtualEntity, hid, hsp, hsd, hse, h1, h2, hkey]

def sampleCreateReq : CreateVirtualRequest :=
  { id := "v9", localName := "", actions := []
    sourcePluginID := "p1", sourceDeviceID := "d1", sourceEntityID := "e1"
    mirrorSource := none }

def sampleRPCErrorResp : RPCResponse (List Entity) :=
  ⟨none, some ⟨-32000, "plugin timeout"⟩⟩

theorem createVirtualEntity_sourceMissing_witness :
    (sampleCreateReq.id ≠ "" ∧ sampleCreateReq.sourcePluginID ≠ "" ∧
      sampleCreateReq.sourceDeviceID ≠ "" ∧ sampleCreateReq.sourceEntityID ≠ "" ∧
      (∃ m, findEntity sampleRPCErrorResp sampleCreateReq.id = .error m) ∧
      sampleStore.entities.find? (entityKey "p2" "d2" sampleCreateReq.id) = none ∧
      (∃ m, findEntity sampleRPCErrorResp sampleCreateReq.sourceEntityID = .error m)) ∧
    createVirtualEntity sampleStore "p2" "d2" sampleCreateReq
        sampleRPCErrorResp sampleRPCErrorResp 7 =
      (sampleStore, .error (.forbidden "source entity not found")) := by
  refine ⟨⟨by decide, by decide, by decide, by decide,
    ⟨"plugin timeout", rfl⟩, by decide, ⟨"plugin timeout", rfl⟩⟩, ?_⟩
  exact createVirtualEntity_sourceMissing sampleStore "p2" "d2" sampleCreateReq
    sampleRPCErrorResp sampleRPCErrorResp 7 (by decide) (by decide) (by decide)
    (by decide) ⟨"plugin timeout", rfl⟩ (by decide)
    ⟨"plugin timeout", rfl⟩

/-- Claim C7: on the virtual command-dispatch path, a payload without a
parseable non-empty `type` field fails with a bad-request error; a
non-empty action list that does not contain the extracted action fails with
the forbidden "action ... not supported by this virtual entity" error; and
an empty action list makes the action check pass for every parseable
payload, the dispatch proceeding to the source forward unconditionally. -/
theorem sendCommandVirtual_actionCheck :
    (∀ (st : VStore) (pid did eid : String) (vrec : VirtualEntityRecord)
        (payload : JSONProbe) (srcResp : RPCResponse CommandStatus)
        (now : Nat) (cid m : String),
      parseActionType payload = .error m →
      sendCommandVirtual st pid did eid vrec payload srcResp now cid =
        (st, .error (.badRequest m))) ∧
    (∀ (st : VStore) (pid did eid : String) (vrec : VirtualEntityRecord)
        (payload : JSONProbe) (srcResp : RPCResponse CommandStatus)
        (now : Nat) (cid a : String),
      parseActionType payload = .ok a →
      0 < vrec.entity.actions.length →
      containsAction vrec.entity.actions a = false →
      sendCommandVirtual st pid did eid vrec payload srcResp now cid =
        (st, .error (.forbidden
          ("action \"" ++ a ++ "\" not supported by this virtual entity")))) ∧
    (∀ (st : VStore) (pid did eid : String) (vrec : VirtualEntityRecord)
        (payload : JSONProbe) (srcResp : RPCResponse CommandStatus)
        (now : Nat) (cid a : String),
      vrec.entity.actions = [] →
      parseActionType payload = .ok a →
      sendCommandVirtual st pid did eid vrec payload srcResp now cid =
        forwardVirtualCommand st pid did eid vrec srcResp now cid) := by
  refine ⟨fun st pid did eid vrec payload srcResp now cid m hp => ?_,
    fun st pid did eid vrec payload srcResp now cid a hp hlen hact => ?_,
    fun st pid did eid vrec payload srcResp now cid a hacts hp => ?_⟩
  · simp [sendCommandVirtual, hp]
  · simp [sendCommandVirtual, hp, hlen, hact]
  · simp [sendCommandVirtual, hp, hacts]

def emptyActionsVrec : VirtualEntityRecord :=
  { sampleVrec with entity := { sampleEntity with actions := [] } }

theorem sendCommandVirtual_actionCheck_witness :
    (parseActionType JSONProbe.parseError = .error "json unmarshal error" ∧
      sendCommandVirtual sampleStore "p2" "d2" "v1" sampleVrec
          JSONProbe.parseError ⟨none, none⟩ 3 "vcmd-2" =
        (sampleStore, .error (.badRequest "json unmarshal error"))) ∧
    (parseActionType (JSONProbe.typeField "set_rgb") = .ok "set_rgb" ∧
      0 < sampleVrec.entity.actions.length ∧
      containsAction sampleVrec.entity.actions "set_rgb" = false ∧
      sendCommandVirtual sampleStore "p2" "d2" "v1" sampleVrec
          (JSONProbe.typeField "set_rgb") ⟨none, none⟩ 3 "vcmd-2" =
        (sampleStore, .error (.forbidden
          "action \"set_rgb\" not supported by this virtual entity"))) ∧
    (emptyActionsVrec.entity.actions = [] ∧
      sendCommandVirtual sampleStore "p2" "d2" "v1" emptyActionsVrec
          (JSONProbe.typeField "set_rgb") ⟨none, none⟩ 3 "vcmd-2" =
        forwardVirtualCommand sampleStore "p2" "d2" "v1" emptyActionsVrec
          ⟨none, none⟩ 3 "vcmd-2") := by
  refine ⟨⟨rfl, ?_⟩, ⟨rfl, by decide, by decide, ?_⟩, ⟨by decide, ?_⟩⟩
  · exact sendCommandVirtual_actionCheck.1 sampleStore "p2" "d2" "v1" sampleVrec
      JSONProbe.parseError ⟨none, none⟩ 3 "vcmd-2" "json unmarshal error" rfl
  · exact sendCommandVirtual_actionCheck.2.1 sampleStore "p2" "d2" "v1"
      sampleVrec (JSONProbe.typeField "set_rgb") ⟨none, none⟩ 3 "vcmd-2"
      "set_rgb" rfl (by decide) (by decide)
  · exact sendCommandVirtual_actionCheck.2.2 sampleStore "p2" "d2" "v1"
      emptyActionsVrec (JSONProbe.typeField "set_rgb") ⟨none, none⟩ 3 "vcmd-2"
      "set_rgb" (by decide) rfl

/-- Claim C10: a synchronous event ingest on an existing virtual entity with
a non-empty correlation id always records that id as the entity's
`last_command_id`, even when no virtual command with that id exists — in
which case the commands map is unchanged; and when such a command does
exist, its state is set to `succeeded` and its `last_updated_at` refreshed
unconditionally — whatever its prior state and whichever virtual key it
refers to. -/
theorem ingestEventVirtual_correlation :
    (∀ (st : VStore) (pid did eid : String) (vrec : VirtualEntityRecord)
        (payload : JSONProbe) (corr nevid : String) (now : Nat),
      corr ≠ "" →
      st.commands.find? corr = none →
      ((ingestEventVirtual st pid did eid vrec payload corr nevid now).1).commands
          = st.commands ∧
      ((ingestEventVirtual st pid did eid vrec payload corr nevid now).2).data.lastCommandID
          = corr ∧
      (∀ r, ((ingestEventVirtual st pid did eid vrec payload corr nevid now).1).entities.find?
            (entityKey pid did eid) = some r →
        r.entity.data.lastCommandID = corr)) ∧
    (∀ (st : VStore) (pid did eid : String) (vrec : VirtualEntityRecord)
        (payload : JSONProbe) (corr nevid : String) (now : Nat)
        (cmdRec : VirtualCommandRecord),
      corr ≠ "" →
      st.commands.find? corr = some cmdRec →
      ((ingestEventVirtual st pid did eid vrec payload corr nevid now).1).commands.find?
          corr =
        some { cmdRec with status := { cmdRec.status with
                 state := .succeeded, lastUpdatedAt := now } }) := by
  constructor
  · intro st pid did eid vrec payload corr nevid now hcorr hnone
    refine ⟨?_, ?_, ?_⟩
    · simp [ingestEventVirtual, VStore.appendEventLocked, VStore.persistLocked,
        hcorr, hnone]
    · simp [ingestEventVirtual, hcorr]
    · intro r hr
      simp [ingestEventVirtual, VStore.appendEventLocked, VStore.persistLocked,
        hcorr, hnone, StrMap.find?_insert_self] at hr
      simp [← hr]
  · intro st pid did eid vrec payload corr nevid now cmdRec hcorr hsome
    simp [ingestEventVirtual, VStore.appendEventLocked, VStore.persistLocked,
      hcorr, hsome, StrMap.find?_insert_self]

def pendingStatus : CommandStatus :=
  { commandID := "vcmd-3", pluginID := "p2", deviceID := "d2"
    entityID := "v1", entityType := "light", state := .pending
    error := "", createdAt := 2, lastUpdatedAt := 2 }

def pendingCmdRec : VirtualCommandRecord :=
  { ownerPluginID := "p2", sourcePluginID := "p1", sourceCommand := "src-3"
    virtualKey := sampleKey, status := pendingStatus }

def pendingStore : VStore :=
  { entities := [(sampleKey, sampleVrec)]
    commands := [("vcmd-3", pendingCmdRec)]
    events := [], disk := ⟨none, none, none⟩ }

theorem ingestEventVirtual_correlation_witness :
    (("vcmd-9" ≠ "" ∧ pendingStore.commands.find? "vcmd-9" = none) ∧
      ((ingestEventVirtual pendingStore "p2" "d2" "v1" sampleVrec
          (JSONProbe.typeField "state") "vcmd-9" "vevt-1" 8).1).commands =
        pendingStore.commands ∧
      ((ingestEventVirtual pendingStore "p2" "d2" "v1" sampleVrec
          (JSONProbe.typeField "state") "vcmd-9" "vevt-1" 8).2).data.lastCommandID =
        "vcmd-9" ∧
      (∀ r, ((ingestEventVirtual pendingStore "p2" "d2" "v1" sampleVrec
            (JSONProbe.typeField "state") "vcmd-9" "vevt-1" 8).1).entities.find?
            (entityKey "p2" "d2" "v1") = some r →
        r.entity.data.lastCommandID = "vcmd-9")) ∧
    (("vcmd-3" ≠ "" ∧ pendingStore.commands.find? "vcmd-3" = some pendingCmdRec) ∧
      ((ingestEventVirtual pendingStore "p2" "d2" "v1" sampleVrec
          (JSONProbe.typeField "state") "vcmd-3" "vevt-1" 8).1).commands.find?
          "vcmd-3" =
        some { pendingCmdRec with status := { pendingCmdRec.status with
                 state := .succeeded, lastUpdatedAt := 8 } }) := by
  refine ⟨⟨⟨by decide, by decide⟩, ?_⟩, ⟨⟨by decide, by decide⟩, ?_⟩⟩
  · exact ingestEventVirtual_correlation.1 pendingStore "p2" "d2" "v1"
      sampleVrec (JSONProbe.typeField "state") "vcmd-9" "vevt-1" 8
      (by decide) (by decide)
  · exact ingestEventVirtual_correlation.2 pendingStore "p2" "d2" "v1"
      sampleVrec (JSONProbe.typeField "state") "vcmd-3" "vevt-1" 8 pendingCmdRec
      (by decide) (by decide)

lemma ingest_no_pending (st : VStore) (pid did eid : String)
    (vrec : VirtualEntityRecord) (payload : JSONProbe) (corr nevid : String)
    (now : Nat) (c : String) (rec rec' : VirtualCommandRecord)
    (h1 : st.commands.find? c = some rec) (h2 : rec.status.state ≠ .pending)
    (h3 : ((ingestEventVirtual st pid did eid vrec payload corr nevid
      now).1).commands.find? c = some rec') :
    rec'.status.state ≠ .pending := by
  by_cases hcorr : corr = ""
  · simp [ingestEventVirtual, VStore.appendEventLocked, VStore.persistLocked,
      hcorr] at h3
    rw [h1] at h3
    injection h3 with h
    subst h
    exact h2
  · cases hfind : st.commands.find? corr with
    | none =>
        simp [ingestEventVirtual, VStore.appendEventLocked,
          VStore.persistLocked, hcorr, hfind] at h3
        rw [h1] at h3
        injection h3 with h
        subst h
        exact h2
    | some cmdRec =>
        simp [ingestEventVirtual, VStore.appendEventLocked,
          VStore.persistLocked, hcorr, hfind] at h3
        by_cases hc : corr = c
        · subst hc
          rw [StrMap.find?_insert_self] at h3
          injection h3 with h
          subst h
          simp
        · rw [StrMap.find?_insert_ne _ _ _ _ hc, h1] at h3
          injection h3 with h
          subst h
          exact h2

lemma monitorTimeout_no_pending (st : VStore) (cid : String) (now : Nat)
    (c : String) (rec rec' : VirtualCommandRecord)
    (h1 : st.commands.find? c = some rec) (h2 : rec.status.state ≠ .pending)
    (h3 : (monitorTimeout st cid now).commands.find? c = some rec') :
    rec'.status.state ≠ .pending := by
  cases hfind : st.commands.find? cid with
  | none =>
      simp [monitorTimeout, hfind] at h3
      rw [h1] at h3
      injection h3 with h
      subst h
      exact h2
  | some rec0 =>
      simp [monitorTimeout, VStore.persistLocked, hfind] at h3
      by_cases hc : cid = c
      · subst hc
        rw [StrMap.find?_insert_self] at h3
        injection h3 with h
        subst h
        simp
      · rw [StrMap.find?_insert_ne _ _ _ _ hc, h1] at h3
        injection h3 with h
        subst h
        exact h2

lemma monitorApplyTerminal_no_pending (st : VStore) (cid : String)
    (sourceStatus : CommandStatus) (srcResp : RPCResponse (List Entity))
    (now : Nat) (c : String) (rec rec' : VirtualCommandRecord)
    (hs : sourceStatus.state ≠ .pending)
    (h1 : st.commands.find? c = some rec) (h2 : rec.status.state ≠ .pending)
    (h3 : (monitorApplyTerminal st cid sourceStatus srcResp now).commands.find? c
      = some rec') :
    rec'.status.state ≠ .pending := by
  cases hfind : st.commands.find? cid with
  | none =>
      simp [monitorApplyTerminal, hfind] at h3
      rw [h1] at h3
      injection h3 with h
      subst h
      exact h2
  | some rec0 =>
      simp [monitorApplyTerminal, VStore.persistLocked, hfind] at h3
      by_cases hc : cid = c
      · subst hc
        rw [StrMap.find?_insert_self] at h3
        injection h3 with h
        subst h
        exact hs
      · rw [StrMap.find?_insert_ne _ _ _ _ hc, h1] at h3
        injection h3 with h
        subst h
        exact h2

lemma monitorFuel_no_pending (cid : String) (env : Nat → PollInput)
    (tNow : Nat) :
    ∀ (n : Nat) (st : VStore) (c : String) (rec rec' : VirtualCommandRecord),
      st.commands.find? c = some rec → rec.status.state ≠ .pending →
      (monitorFuel cid env tNow n st).commands.find? c = some rec' →
      rec'.status.state ≠ .pending := by
  intro n
  induction n with
  | zero =>
      intro st c rec rec' h1 h2 h3
      exact monitorTimeout_no_pending st cid tNow c rec rec' h1 h2 h3
  | succ n ih =>
      intro st c rec rec' h1 h2 h3
      rw [monitorFuel] at h3
      cases hfind : st.commands.find? cid with
      | none =>
          rw [hfind] at h3
          rw [h1] at h3
          injection h3 with h
          subst h
          exact h2
      | some rec0 =>
          rw [hfind] at h3
          simp only at h3
          cases hstat : fetchCommandStatus (env n).statusResp with
          | error m =>
              rw [hstat] at h3
              exact ih st c rec rec' h1 h2 h3
          | ok s =>
              rw [hstat] at h3
              dsimp only at h3
              by_cases hp : s.state = .pending
              · rw [if_pos hp] at h3
                exact ih st c rec rec' h1 h2 h3
              · rw [if_neg hp] at h3
                exact monitorApplyTerminal_no_pending st cid s
                  (env n).srcEntityResp (env n).now c rec rec' hp h1 h2 h3

/-- Counterexample to claim C1 as stated: in `sampleStore` the virtual
command "vcmd-1" is terminal (`failed`), yet a correlated event ingest
naming it as X-Correlation-ID rewrites its state to `succeeded` — a
terminal state changed by a later operation. -/
theorem terminal_state_overwritten_cex :
    (sampleStore.commands.find? "vcmd-1").map (fun r => r.status.state) =
      some CommandState.failed ∧
    (((ingestEventVirtual sampleStore "p2" "d2" "v1" sampleVrec
        (JSONProbe.typeField "state") "vcmd-1" "vevt-7" 9).1).commands.find?
        "vcmd-1").map (fun r => r.status.state) =
      some CommandState.succeeded := by
  constructor <;> rfl

/-- Claim C1, amended: once a virtual command's local state is terminal, no
later monitor poll, monitor timeout, or correlated event ingest transitions
it back to `pending` — but the terminal value itself is not stable: a
correlated ingest overwrites any terminal state with `succeeded`
(see `terminal_state_overwritten_cex`), and the monitor may overwrite a
terminal state with the source's terminal state or with the timeout
failure. -/
theorem command_never_back_to_pending :
    (∀ (st : VStore) (pid did eid : String) (vrec : VirtualEntityRecord)
        (payload : JSONProbe) (corr nevid : String) (now : Nat) (c : String)
        (rec rec' : VirtualCommandRecord),
      st.commands.find? c = some rec → rec.status.state ≠ .pending →
      ((ingestEventVirtual st pid did eid vrec payload corr nevid
        now).1).commands.find? c = some rec' →
      rec'.status.state ≠ .pending) ∧
    (∀ (st : VStore) (cid : String) (now : Nat) (c : String)
        (rec rec' : VirtualCommandRecord),
      st.commands.find? c = some rec → rec.status.state ≠ .pending →
      (monitorTimeout st cid now).commands.find? c = some rec' →
      rec'.status.state ≠ .pending) ∧
    (∀ (st : VStore) (cid : String) (env : Nat → PollInput) (tNow : Nat)
        (c : String) (rec rec' : VirtualCommandRecord),
      st.commands.find? c = some rec → rec.status.state ≠ .pending →
      (monitorVirtualCommand st cid env tNow).commands.find? c = some rec' →
      rec'.status.state ≠ .pending) := by
  refine ⟨ingest_no_pending, monitorTimeout_no_pending, ?_⟩
  intro st cid env tNow c rec rec' h1 h2 h3
  exact monitorFuel_no_pending cid env tNow 100 st c rec rec' h1 h2 h3

theorem command_never_back_to_pending_witness :
    (sampleStore.commands.find? "vcmd-1" = some sampleCmdRec ∧
      sampleCmdRec.status.state ≠ CommandState.pending ∧
      ((ingestEventVirtual sampleStore "p2" "d2" "v1" sampleVrec
          (JSONProbe.typeField "state") "vcmd-1" "vevt-7" 9).1).commands.find?
          "vcmd-1" =
        some { sampleCmdRec with status := { sampleCmdRec.status with
                 state := .succeeded, lastUpdatedAt := 9 } }) ∧
    ({ sampleCmdRec with status := { sampleCmdRec.status with
         state := .succeeded, lastUpdatedAt := 9 } } :
       VirtualCommandRecord).status.state ≠ CommandState.pending := by
  refine ⟨⟨by decide, by decide, by decide⟩, ?_⟩
  exact command_never_back_to_pending.1 sampleStore "p2" "d2" "v1" sampleVrec
    (JSONProbe.typeField "state") "vcmd-1" "vevt-7" 9 "vcmd-1" sampleCmdRec
    { sampleCmdRec with status := { sampleCmdRec.status with
        state := .succeeded, lastUpdatedAt := 9 } }
    (by decide) (by decide) (by decide)

/-- A poll iteration that never observes a terminal source status: either
`fetchCommandStatus` fails or the source still reports `pending`. -/
def pollStillPending (p : PollInput) : Prop :=
  ∀ s, fetchCommandStatus p.statusResp = .ok s → s.state = .pending

lemma monitorFuel_stillPending (cid : String) (env : Nat → PollInput)
    (tNow : Nat) :
    ∀ (n : Nat) (st : VStore) (rec : VirtualCommandRecord),
      (∀ k, pollStillPending (env k)) →
      st.commands.find? cid = some rec →
      monitorFuel cid env tNow n st = monitorTimeout st cid tNow := by
  intro n
  induction n with
  | zero => intro st rec _ _; rfl
  | succ n ih =>
      intro st rec henv hrec
      rw [monitorFuel, hrec]
      dsimp only
      cases hstat : fetchCommandStatus (env n).statusResp with
      | error m => exact ih st rec henv hrec
      | ok s =>
          dsimp only
          rw [if_pos (henv n s hstat)]
          exact ih st rec henv hrec

/-- Claim C3: when a virtual command's monitor runs through all 100 polls
without ever observing a terminal source status and the command record
still exists, the run ends in the timeout block: the command is marked
`failed` with error exactly "timeout waiting for source command" at the
timeout instant, the owning virtual entity's `sync_status` becomes
"failed" with `last_command_id` set to the virtual command's id, and the
resulting store is persisted to disk. -/
theorem monitorVirtualCommand_timeout (st : VStore) (cid : String)
    (env : Nat → PollInput) (tNow : Nat) (rec : VirtualCommandRecord)
    (vent : VirtualEntityRecord)
    (henv : ∀ k, pollStillPending (env k))
    (hrec : st.commands.find? cid = some rec)
    (hvent : st.entities.find? rec.virtualKey = some vent) :
    monitorVirtualCommand st cid env tNow =
      VStore.persistLocked { st with
        commands := st.commands.insert cid
          { rec with status := { rec.status with
              state := .failed
              error := "timeout waiting for source command"
              lastUpdatedAt := tNow } }
        entities := st.entities.insert rec.virtualKey
          { vent with entity := { vent.entity with data :=
              { vent.entity.data with syncStatus := "failed"
                                      lastCommandID := cid
                                      updatedAt := tNow } } } } := by
  rw [monitorVirtualCommand, monitorFuel_stillPending cid env tNow 100 st rec
    henv hrec]
  simp [monitorTimeout, hrec, hvent]

def stillPendingEnv : Nat → PollInput :=
  fun _ => { statusResp := ⟨none, some ⟨-32000, "plugin timeout"⟩⟩
             srcEntityResp := ⟨none, none⟩, now := 0 }

theorem monitorVirtualCommand_timeout_witness :
    ((∀ k, pollStillPending (stillPendingEnv k)) ∧
      sampleStore.commands.find? "vcmd-1" = some sampleCmdRec ∧
      sampleStore.entities.find? sampleCmdRec.virtualKey = some sampleVrec) ∧
    monitorVirtualCommand sampleStore "vcmd-1" stillPendingEnv 42 =
      VStore.persistLocked { sampleStore with
        commands := sampleStore.commands.insert "vcmd-1"
          { sampleCmdRec with status := { sampleCmdRec.status with
              state := .failed
              error := "timeout waiting for source command"
              lastUpdatedAt := 42 } }
        entities := sampleStore.entities.insert sampleCmdRec.virtualKey
          { sampleVrec with entity := { sampleVrec.entity with data :=
              { sampleVrec.entity.data with syncStatus := "failed"
                                            lastCommandID := "vcmd-1"
                                            updatedAt := 42 } } } } := by
  have henv : ∀ k, pollStillPending (stillPendingEnv k) := by
    intro k s h
    simp [stillPendingEnv, fetchCommandStatus] at h
  refine ⟨⟨henv, by decide, by decide⟩, ?_⟩
  exact monitorVirtualCommand_timeout sampleStore "vcmd-1" stillPendingEnv 42
    sampleCmdRec sampleVrec henv (by decide) (by decide)

/-- The newest `n` entries of a list — the suffix `xs[len-n:]` that the
journal trim keeps. -/
def rtake {α : Type} (n : Nat) (xs : List α) : List α :=
  xs.drop (xs.length - n)

lemma rtake_of_length_le {α : Type} (n : Nat) (xs : List α)
    (h : xs.length ≤ n) : rtake n xs = xs := by
  unfold rtake
  have h0 : xs.length - n = 0 := by omega
  rw [h0, List.drop_zero]

lemma length_rtake {α : Type} (n : Nat) (xs : List α) :
    (rtake n xs).length = min n xs.length := by
  unfold rtake
  rw [List.length_drop]
  omega

lemma rtake_append_rtake {α : Type} (n : Nat) (xs ys : List α) :
    rtake n (rtake n xs ++ ys) = rtake n (xs ++ ys) := by
  unfold rtake
  rw [List.drop_append_eq_append_drop, List.drop_append_eq_append_drop,
    List.drop_drop]
  have h1 : xs.length - n +
      ((List.drop (xs.length - n) xs ++ ys).length - n) =
      (xs ++ ys).length - n := by
    simp only [List.length_append, List.length_drop]
    omega
  have h2 : (List.drop (xs.length - n) xs ++ ys).length - n -
      (List.drop (xs.length - n) xs).length =
      (xs ++ ys).length - n - xs.length := by
    simp only [List.length_append, List.length_drop]
    omega
  rw [h1, h2]

lemma appendEventLocked_events (vs : VStore) (evt : ObservedEvent) :
    (vs.appendEventLocked evt).events = rtake 5000 (vs.events ++ [evt]) := by
  unfold VStore.appendEventLocked rtake
  dsimp only
  by_cases h : (vs.events ++ [evt]).length > 5000
  · rw [if_pos h]
  · rw [if_neg h]
    have h0 : (vs.events ++ [evt]).length - 5000 = 0 := by omega
    rw [h0, List.drop_zero]

lemma foldl_appendEventLocked (es : List ObservedEvent) :
    ∀ vs : VStore, vs.events.length ≤ 5000 →
      (es.foldl VStore.appendEventLocked vs).events =
        rtake 5000 (vs.events ++ es) := by
  induction es with
  | nil =>
      intro vs h
      simp [rtake_of_length_le 5000 vs.events h]
  | cons e es ih =>
      intro vs h
      rw [List.foldl_cons]
      have hlen : (vs.appendEventLocked e).events.length ≤ 5000 := by
        rw [appendEventLocked_events, length_rtake]
        omega
      rw [ih _ hlen, appendEventLocked_events, rtake_append_rtake,
        List.append_assoc, List.singleton_append]

/-- Claim C5: under any sequence of journal appends starting from a journal
within its 5000-entry bound, the journal stays within the bound at every
intermediate point; the journal always equals the newest-5000 suffix of
everything ever appended (appending when full discards the oldest); and in
particular injecting 5001 events into an empty journal leaves exactly 5000
entries whose first one is the second event injected. -/
theorem journal_capacity (init : VStore) (es : List ObservedEvent)
    (hinit : init.events.length ≤ 5000) :
    (∀ k, ((es.take k).foldl VStore.appendEventLocked init).events.length
      ≤ 5000) ∧
    (es.foldl VStore.appendEventLocked init).events =
      rtake 5000 (init.events ++ es) ∧
    (init.events = [] → es.length = 5001 →
      (es.foldl VStore.appendEventLocked init).events.length = 5000 ∧
      (es.foldl VStore.appendEventLocked init).events.head? = es[1]?) := by
  refine ⟨?_, foldl_appendEventLocked es init hinit, ?_⟩
  · intro k
    rw [foldl_appendEventLocked (es.take k) init hinit, length_rtake]
    omega
  · intro h0 h1
    rw [foldl_appendEventLocked es init hinit, h0, List.nil_append]
    unfold rtake
    rw [h1]
    have h2 : (5001 : Nat) - 5000 = 1 := rfl
    rw [h2]
    constructor
    · rw [List.length_drop, h1]
    · exact List.head?_drop es 1

def emptyStore : VStore :=
  { entities := [], commands := [], events := [], disk := ⟨none, none, none⟩ }

def sampleEvents : List ObservedEvent :=
  (List.range 5001).map fun i =>
    { name := "entity.original.statechange", pluginID := "p1"
      deviceID := "d1", entityID := "e1", eventID := Nat.repr i
      createdAt := i }

theorem journal_capacity_witness :
    emptyStore.events.length ≤ 5000 ∧
    ((∀ k, ((sampleEvents.take k).foldl VStore.appendEventLocked
        emptyStore).events.length ≤ 5000) ∧
      (sampleEvents.foldl VStore.appendEventLocked emptyStore).events =
        rtake 5000 (emptyStore.events ++ sampleEvents) ∧
      (emptyStore.events = [] → sampleEvents.length = 5001 →
        (sampleEvents.foldl VStore.appendEventLocked
          emptyStore).events.length = 5000 ∧
        (sampleEvents.foldl VStore.appendEventLocked
          emptyStore).events.head? = sampleEvents[1]?)) :=
  ⟨by decide, journal_capacity emptyStore sampleEvents (by decide)⟩

/-- The decimal digit characters of `n`, most significant first: the list
underlying `Nat.repr` (and Go's `%d`). -/
def natChars (n : Nat) : List Char :=
  if h : n < 10 then [Nat.digitChar n]
  else natChars (n / 10) ++ [Nat.digitChar (n % 10)]
termination_by n
decreasing_by exact Nat.div_lt_self (by omega) (by omega)

lemma digitChar_ne_dash (m : Nat) (h : m < 10) : Nat.digitChar m ≠ '-' := by
  interval_cases m <;> decide

lemma natChars_ne_dash (n : Nat) : ∀ c ∈ natChars n, c ≠ '-' := by
  induction n using Nat.strong_induction_on with
  | _ n ih =>
      rw [natChars]
      by_cases h : n < 10
      · rw [dif_pos h]
        intro c hc
        simp only [List.mem_singleton] at hc
        subst hc
        exact digitChar_ne_dash n h
      · rw [dif_neg h]
        intro c hc
        rw [List.mem_append] at hc
        cases hc with
        | inl hc => exact ih (n / 10) (Nat.div_lt_self (by omega) (by omega)) c hc
        | inr hc =>
            simp only [List.mem_singleton] at hc
            subst hc
            exact digitChar_ne_dash (n % 10) (Nat.mod_lt n (by omega))

/-- The value of a decimal digit character. -/
def charVal (c : Char) : Nat := c.toNat - 48

/-- The number denoted by a most-significant-first decimal digit list. -/
def natVal (cs : List Char) : Nat :=
  cs.foldl (fun acc c => acc * 10 + charVal c) 0

lemma charVal_digitChar (m : Nat) (h : m < 10) :
    charVal (Nat.digitChar m) = m := by
  interval_cases m <;> decide

lemma natVal_natChars (n : Nat) : natVal (natChars n) = n := by
  induction n using Nat.strong_induction_on with
  | _ n ih =>
      rw [natChars]
      by_cases h : n < 10
      · rw [dif_pos h]
        simp [natVal, charVal_digitChar n h]
      · rw [dif_neg h]
        unfold natVal
        rw [List.foldl_append]
        have ihh := ih (n / 10) (Nat.div_lt_self (by omega) (by omega))
        unfold natVal at ihh
        rw [ihh]
        simp only [List.foldl_cons, List.foldl_nil]
        rw [charVal_digitChar (n % 10) (Nat.mod_lt n (by omega))]
        omega

lemma natChars_inj (a b : Nat) (h : natChars a = natChars b) : a = b := by
  rw [← natVal_natChars a, ← natVal_natChars b, h]

lemma toDigitsCore_eq_natChars :
    ∀ (fuel n : Nat) (ds : List Char), 0 < fuel → n < 10 ^ fuel →
      Nat.toDigitsCore 10 fuel n ds = natChars n ++ ds := by
  intro fuel
  induction fuel with
  | zero => intro n ds h _; omega
  | succ f ih =>
      intro n ds _ hlt
      rw [Nat.toDigitsCore]
      by_cases h : n / 10 = 0
      · rw [if_pos h]
        have h10 : n < 10 := by omega
        have hmod : n % 10 = n := by omega
        rw [natChars, dif_pos h10, hmod]
        rfl
      · rw [if_neg h]
        cases f with
        | zero =>
            rw [pow_one] at hlt
            omega
        | succ f' =>
            have hdiv : n / 10 < 10 ^ (f' + 1) := by
              rw [pow_succ] at hlt
              exact Nat.div_lt_iff_lt_mul (by omega) |>.mpr hlt
            rw [ih (n / 10) (Nat.digitChar (n % 10) :: ds) (by omega) hdiv]
            have hge : ¬ n < 10 := by omega
            conv_rhs => rw [natChars]
            rw [dif_neg hge, List.append_assoc, List.singleton_append]

lemma repr_eq_natChars (n : Nat) : Nat.repr n = (natChars n).asString := by
  show (Nat.toDigits 10 n).asString = _
  unfold Nat.toDigits
  rw [toDigitsCore_eq_natChars (n + 1) n [] (by omega)
    (lt_of_lt_of_le (Nat.lt_pow_self (by omega) n)
      (Nat.pow_le_pow_right (by omega) (Nat.le_succ n)))]
  rw [List.append_nil]

lemma repr_data (n : Nat) : (Nat.repr n).data = natChars n := by
  rw [repr_eq_natChars]
  exact List.toList_asString (natChars n)

lemma repr_data_ne_dash (n : Nat) : '-' ∉ (Nat.repr n).data := by
  rw [repr_data]
  intro hm
  exact natChars_ne_dash n '-' hm rfl

lemma dash_split : ∀ (a c b d : List Char), '-' ∉ a → '-' ∉ c →
    a ++ '-' :: b = c ++ '-' :: d → a = c ∧ b = d := by
  intro a
  induction a with
  | nil =>
      intro c b d _ hc h
      cases c with
      | nil =>
          simp only [List.nil_append] at h
          injection h with _ h2
          exact ⟨rfl, h2⟩
      | cons y ys =>
          simp only [List.nil_append, List.cons_append] at h
          injection h with h1 _
          rw [← h1] at hc
          exact absurd (List.mem_cons_self '-' ys) hc
  | cons x xs ih =>
      intro c b d ha hc h
      cases c with
      | nil =>
          simp only [List.nil_append, List.cons_append] at h
          injection h with h1 _
          rw [h1] at ha
          exact absurd (List.mem_cons_self '-' xs) ha
      | cons y ys =>
          simp only [List.cons_append] at h
          injection h with h1 h2
          subst h1
          have ha' : '-' ∉ xs := fun hm => ha (List.mem_cons_of_mem x hm)
          have hc' : '-' ∉ ys := fun hm => hc (List.mem_cons_of_mem x hm)
          obtain ⟨e1, e2⟩ := ih ys b d ha' hc' h2
          exact ⟨by rw [e1], e2⟩

lemma idSeqAfter_eq (k : Nat) : idSeqAfter k = k % uint64Mod := by
  induction k with
  | zero => rfl
  | succ k ih =>
      show (nextID "" 0 (idSeqAfter k)).2 = (k + 1) % uint64Mod
      rw [nextID, ih]
      simp only [uint64Mod]
      omega

lemma callID_data (pfx : String) (ts : Nat → Nat) (k : Nat) :
    (callID pfx ts k).data =
      pfx.data ++ '-' :: ((Nat.repr (ts k)).data ++
        '-' :: (Nat.repr ((idSeqAfter k + 1) % uint64Mod)).data) := by
  show (pfx ++ "-" ++ Nat.repr (ts k) ++ "-" ++
      Nat.repr ((idSeqAfter k + 1) % uint64Mod)).data = _
  simp only [String.data_append, List.append_assoc]
  rfl

/-- Claim C8: ids issued by the gateway's generator are pairwise distinct
within a process: each id is `"<prefix>-<nanoseconds>-<counter>"` where the
counter starts at zero and is atomically incremented on every call, so two
distinct calls carry distinct counters — and therefore distinct id strings —
even when they observe the same timestamp.  The bound `uint64Mod` reflects
that the Go counter is a uint64: within its first 2^64 calls the counter
never repeats. -/
theorem nextID_unique (pfx : String) (ts : Nat → Nat) (i j : Nat)
    (hi : i < uint64Mod) (hj : j < uint64Mod) (hij : i ≠ j) :
    callID pfx ts i ≠ callID pfx ts j := by
  intro h
  have hc : (idSeqAfter i + 1) % uint64Mod ≠ (idSeqAfter j + 1) % uint64Mod := by
    rw [idSeqAfter_eq, idSeqAfter_eq]
    simp only [uint64Mod] at *
    omega
  have hdata := congrArg String.data h
  rw [callID_data, callID_data] at hdata
  have h2 := List.append_cancel_left hdata
  injection h2 with _ h3
  obtain ⟨_, h5⟩ := dash_split (Nat.repr (ts i)).data (Nat.repr (ts j)).data
    _ _ (repr_data_ne_dash (ts i)) (repr_data_ne_dash (ts j)) h3
  rw [repr_data, repr_data] at h5
  exact hc (natChars_inj _ _ h5)

theorem nextID_unique_witness :
    ((0 : Nat) < uint64Mod ∧ (1 : Nat) < uint64Mod ∧ (0 : Nat) ≠ 1) ∧
      callID "vcmd" (fun _ => 1700000000000000000) 0 ≠
        callID "vcmd" (fun _ => 1700000000000000000) 1 :=
  ⟨⟨by decide, by decide, by decide⟩,
    nextID_unique "vcmd" (fun _ => 1700000000000000000) 0 1 (by decide)
      (by decide) (by decide)⟩
